import Mathlib

/-!
Verification of the panopticon stats recorder (Go, `main.go`).

The development shallowly embeds the program's data model and the
operations of its persistence engine:

* `StatsReport` — the decoded report struct, with nullable `*int64`
  fields embedded as `Option Int` and plain strings as `String`;
* `appendIfNonNil` / `appendIfNonEmpty` — the column/value builders;
* `Recorder.Save`'s column, value, placeholder and SQL-text synthesis
  (`saveCols`, `saveVals`, `savePlaceholders`, `saveSQL`);
* the JSON decoding step of `Recorder.Handle`, modelled after the
  behaviour of Go's `encoding/json` on this struct
  (`decodeStatsReport`), and the handler control flow (`handle`);
* the schema provisioning step (`createTableStmt`, `createTable`)
  over an abstract database state.
-/

/-- A value bound as a SQL parameter: the Go code binds either strings
or (pointers to) 64-bit integers. -/
inductive SqlValue where
  | s (v : String)
  | i (v : Int)
deriving DecidableEq, Repr

/-- The `StatsReport` struct from `main.go`.  Go `*int64` fields become
`Option Int`; `string` fields become `String`; `int64` becomes `Int`. -/
structure StatsReport where
  homeserver : String
  localTimestamp : Int
  remoteTimestamp : Option Int
  uptimeSeconds : Option Int
  totalUsers : Option Int
  totalNonBridgedUsers : Option Int
  totalRoomCount : Option Int
  dailyActiveUsers : Option Int
  dailyMessages : Option Int
  dailySentMessages : Option Int
  dailyActiveRooms : Option Int
  remoteAddr : String
  xForwardedFor : String
  userAgent : String
deriving DecidableEq, Repr

/-- The zero value of `StatsReport`: what `var sr StatsReport` yields in
Go before decoding (empty strings, zero timestamp, nil pointers). -/
def defaultReport : StatsReport :=
  { homeserver := ""
    localTimestamp := 0
    remoteTimestamp := none
    uptimeSeconds := none
    totalUsers := none
    totalNonBridgedUsers := none
    totalRoomCount := none
    dailyActiveUsers := none
    dailyMessages := none
    dailySentMessages := none
    dailyActiveRooms := none
    remoteAddr := ""
    xForwardedFor := ""
    userAgent := "" }

/-- `appendIfNonNil` from `main.go`: append the column name and the
pointed-to value exactly when the pointer is non-nil. -/
def appendIfNonNil (cols : List String) (vals : List SqlValue)
    (name : String) (value : Option Int) : List String × List SqlValue :=
  match value with
  | some v => (cols ++ [name], vals ++ [SqlValue.i v])
  | none => (cols, vals)

/-- `appendIfNonEmpty` from `main.go`: append the column name and the
string value exactly when the string is non-empty. -/
def appendIfNonEmpty (cols : List String) (vals : List SqlValue)
    (name : String) (value : String) : List String × List SqlValue :=
  if value ≠ "" then (cols ++ [name], vals ++ [SqlValue.s value])
  else (cols, vals)

/-- The column/value synthesis of `Recorder.Save`, line for line: the
three always-present columns followed by the eleven conditional appends
in source order. -/
def saveColsVals (sr : StatsReport) : List String × List SqlValue :=
  let cv : List String × List SqlValue :=
    (["homeserver", "local_timestamp", "remote_addr"],
     [SqlValue.s sr.homeserver, SqlValue.i sr.localTimestamp,
      SqlValue.s sr.remoteAddr])
  let cv := appendIfNonNil cv.1 cv.2 "remote_timestamp" sr.remoteTimestamp
  let cv := appendIfNonNil cv.1 cv.2 "uptime_seconds" sr.uptimeSeconds
  let cv := appendIfNonNil cv.1 cv.2 "total_users" sr.totalUsers
  let cv := appendIfNonNil cv.1 cv.2 "total_nonbridged_users" sr.totalNonBridgedUsers
  let cv := appendIfNonNil cv.1 cv.2 "total_room_count" sr.totalRoomCount
  let cv := appendIfNonNil cv.1 cv.2 "daily_active_users" sr.dailyActiveUsers
  let cv := appendIfNonNil cv.1 cv.2 "daily_active_rooms" sr.dailyActiveRooms
  let cv := appendIfNonNil cv.1 cv.2 "daily_messages" sr.dailyMessages
  let cv := appendIfNonNil cv.1 cv.2 "daily_sent_messages" sr.dailySentMessages
  let cv := appendIfNonEmpty cv.1 cv.2 "forwarded_for" sr.xForwardedFor
  let cv := appendIfNonEmpty cv.1 cv.2 "user_agent" sr.userAgent
  cv

/-- The column list `cols` computed by `Recorder.Save`. -/
def saveCols (sr : StatsReport) : List String := (saveColsVals sr).1

/-- The bound-value list `vals` computed by `Recorder.Save`. -/
def saveVals (sr : StatsReport) : List SqlValue := (saveColsVals sr).2

/-- The placeholder loop of `Recorder.Save`: one token per value index,
`?` for the mysql driver and `$i` (1-based) otherwise. -/
def placeholders (dbDriver : String) (n : Nat) : List String :=
  (List.range n).map fun i =>
    if dbDriver = "mysql" then "?" else "$" ++ toString (i + 1)

/-- The placeholder list generated by `Recorder.Save` for a report. -/
def savePlaceholders (dbDriver : String) (sr : StatsReport) : List String :=
  placeholders dbDriver (saveVals sr).length

/-- The exact SQL statement text passed to `DB.Exec` by `Recorder.Save`,
including the raw-string whitespace of the Go source. -/
def saveSQL (dbDriver : String) (sr : StatsReport) : String :=
  "INSERT INTO stats (\n\t\t\t" ++ String.intercalate ", " (saveCols sr)
    ++ "\n\t\t) VALUES ("
    ++ String.intercalate ", " (savePlaceholders dbDriver sr) ++ ")"

/-- The field-presence pattern of a report: which optional integer
fields are non-nil, and whether the two header strings are non-empty.
This is the only report-derived information that can influence the
shape of the generated statement. -/
def presencePattern (sr : StatsReport) : List Bool :=
  [sr.remoteTimestamp.isSome, sr.uptimeSeconds.isSome,
   sr.totalUsers.isSome, sr.totalNonBridgedUsers.isSome,
   sr.totalRoomCount.isSome, sr.dailyActiveUsers.isSome,
   sr.dailyActiveRooms.isSome, sr.dailyMessages.isSome,
   sr.dailySentMessages.isSome,
   decide (sr.xForwardedFor ≠ ""), decide (sr.userAgent ≠ "")]

/-- The (column, bound value) entry contributed by one `appendIfNonNil`
call: a singleton when present, nothing when nil. -/
def optEntry (name : String) (value : Option Int) : List (String × SqlValue) :=
  match value with
  | some v => [(name, SqlValue.i v)]
  | none => []

/-- The (column, bound value) entry contributed by one
`appendIfNonEmpty` call. -/
def strEntry (name : String) (value : String) : List (String × SqlValue) :=
  if value ≠ "" then [(name, SqlValue.s value)] else []

/-- The full (column, bound value) association produced by
`Recorder.Save`, as a flat list of entries in source order. -/
def saveEntries (sr : StatsReport) : List (String × SqlValue) :=
  [("homeserver", SqlValue.s sr.homeserver),
   ("local_timestamp", SqlValue.i sr.localTimestamp),
   ("remote_addr", SqlValue.s sr.remoteAddr)]
  ++ optEntry "remote_timestamp" sr.remoteTimestamp
  ++ optEntry "uptime_seconds" sr.uptimeSeconds
  ++ optEntry "total_users" sr.totalUsers
  ++ optEntry "total_nonbridged_users" sr.totalNonBridgedUsers
  ++ optEntry "total_room_count" sr.totalRoomCount
  ++ optEntry "daily_active_users" sr.dailyActiveUsers
  ++ optEntry "daily_active_rooms" sr.dailyActiveRooms
  ++ optEntry "daily_messages" sr.dailyMessages
  ++ optEntry "daily_sent_messages" sr.dailySentMessages
  ++ strEntry "forwarded_for" sr.xForwardedFor
  ++ strEntry "user_agent" sr.userAgent

/-! ## JSON decoding (`Recorder.Handle`, `encoding/json` on `StatsReport`) -/

/-- A well-formed JSON value. -/
inductive Json where
  | str (s : String)
  | num (n : Int)
  | boolean (b : Bool)
  | null
  | arr (xs : List Json)
  | obj (fields : List (String × Json))

/-- Lowercase the ASCII letters of a string (the case folding used for
JSON key matching). -/
def lowerAscii (s : String) : String :=
  String.mk (s.data.map fun c =>
    if 'A' ≤ c ∧ c ≤ 'Z' then Char.ofNat (c.toNat + 32) else c)

/-- The struct fields of `StatsReport` addressable by a JSON key, or
`unknown` for a key matching none of them. -/
inductive FieldKey where
  | homeserver
  | localTimestamp
  | remoteTimestamp
  | uptimeSeconds
  | totalUsers
  | totalNonBridgedUsers
  | totalRoomCount
  | dailyActiveUsers
  | dailyMessages
  | dailySentMessages
  | dailyActiveRooms
  | remoteAddr
  | xForwardedFor
  | userAgent
  | unknown
deriving DecidableEq, Repr

/-- Modelled from the behaviour of Go's `encoding/json` on the
`StatsReport` struct (the decoder is standard-library code, not part of
the repository): an object key is matched case-insensitively against
the `json:` tag of a tagged field and against the field name of an
untagged field; a key matching neither is ignored. -/
def keyOf (key : String) : FieldKey :=
  let k := lowerAscii key
  if k = "homeserver" then FieldKey.homeserver
  else if k = "localtimestamp" then FieldKey.localTimestamp
  else if k = "timestamp" then FieldKey.remoteTimestamp
  else if k = "uptime_seconds" then FieldKey.uptimeSeconds
  else if k = "total_users" then FieldKey.totalUsers
  else if k = "total_nonbridged_users" then FieldKey.totalNonBridgedUsers
  else if k = "total_room_count" then FieldKey.totalRoomCount
  else if k = "daily_active_users" then FieldKey.dailyActiveUsers
  else if k = "daily_messages" then FieldKey.dailyMessages
  else if k = "daily_sent_messages" then FieldKey.dailySentMessages
  else if k = "daily_active_rooms" then FieldKey.dailyActiveRooms
  else if k = "remoteaddr" then FieldKey.remoteAddr
  else if k = "xforwardedfor" then FieldKey.xForwardedFor
  else if k = "useragent" then FieldKey.userAgent
  else FieldKey.unknown

/-- Modelled from the behaviour of Go's `encoding/json` on the
`StatsReport` struct: a matching key assigns the field when the value
has the expected type, JSON `null` leaves the field unchanged, a type
mismatch is an error, and an unknown key is ignored. -/
def setField (sr : StatsReport) (key : String) (v : Json) :
    Except String StatsReport :=
  match keyOf key, v with
  | FieldKey.unknown, _ => Except.ok sr
  | _, Json.null => Except.ok sr
  | FieldKey.homeserver, Json.str s => Except.ok { sr with homeserver := s }
  | FieldKey.homeserver, _ => Except.error "cannot unmarshal into Homeserver"
  | FieldKey.localTimestamp, Json.num n => Except.ok { sr with localTimestamp := n }
  | FieldKey.localTimestamp, _ => Except.error "cannot unmarshal into LocalTimestamp"
  | FieldKey.remoteTimestamp, Json.num n => Except.ok { sr with remoteTimestamp := some n }
  | FieldKey.remoteTimestamp, _ => Except.error "cannot unmarshal into RemoteTimestamp"
  | FieldKey.uptimeSeconds, Json.num n => Except.ok { sr with uptimeSeconds := some n }
  | FieldKey.uptimeSeconds, _ => Except.error "cannot unmarshal into UptimeSeconds"
  | FieldKey.totalUsers, Json.num n => Except.ok { sr with totalUsers := some n }
  | FieldKey.totalUsers, _ => Except.error "cannot unmarshal into TotalUsers"
  | FieldKey.totalNonBridgedUsers, Json.num n => Except.ok { sr with totalNonBridgedUsers := some n }
  | FieldKey.totalNonBridgedUsers, _ => Except.error "cannot unmarshal into TotalNonBridgedUsers"
  | FieldKey.totalRoomCount, Json.num n => Except.ok { sr with totalRoomCount := some n }
  | FieldKey.totalRoomCount, _ => Except.error "cannot unmarshal into TotalRoomCount"
  | FieldKey.dailyActiveUsers, Json.num n => Except.ok { sr with dailyActiveUsers := some n }
  | FieldKey.dailyActiveUsers, _ => Except.error "cannot unmarshal into DailyActiveUsers"
  | FieldKey.dailyMessages, Json.num n => Except.ok { sr with dailyMessages := some n }
  | FieldKey.dailyMessages, _ => Except.error "cannot unmarshal into DailyMessages"
  | FieldKey.dailySentMessages, Json.num n => Except.ok { sr with dailySentMessages := some n }
  | FieldKey.dailySentMessages, _ => Except.error "cannot unmarshal into DailySentMessages"
  | FieldKey.dailyActiveRooms, Json.num n => Except.ok { sr with dailyActiveRooms := some n }
  | FieldKey.dailyActiveRooms, _ => Except.error "cannot unmarshal into DailyActiveRooms"
  | FieldKey.remoteAddr, Json.str s => Except.ok { sr with remoteAddr := s }
  | FieldKey.remoteAddr, _ => Except.error "cannot unmarshal into RemoteAddr"
  | FieldKey.xForwardedFor, Json.str s => Except.ok { sr with xForwardedFor := s }
  | FieldKey.xForwardedFor, _ => Except.error "cannot unmarshal into XForwardedFor"
  | FieldKey.userAgent, Json.str s => Except.ok { sr with userAgent := s }
  | FieldKey.userAgent, _ => Except.error "cannot unmarshal into UserAgent"

/-- Decoding a JSON value into a fresh `StatsReport` (the
`dec.Decode(&sr)` step of `Recorder.Handle`): the top level must be an
object, whose keys are folded over the zero-valued struct. -/
def decodeStatsReport (j : Json) : Except String StatsReport :=
  match j with
  | Json.obj fields =>
      fields.foldlM (fun sr kv => setField sr kv.1 kv.2) defaultReport
  | _ => Except.error "cannot unmarshal into StatsReport"

/-- The request body as seen by the decoder: `none` stands for a byte
stream that is not well-formed JSON. -/
def decodeBody (b : Option Json) : Except String StatsReport :=
  match b with
  | none => Except.error "invalid JSON"
  | some j => decodeStatsReport j

/-! ## Handler control flow (`Recorder.Handle`) -/

/-- The inbound HTTP request, reduced to what `Handle` reads: the body,
the transport peer address, and the two header values (Go's
`Header.Get` returns `""` when the header is absent). -/
structure HttpRequest where
  body : Option Json
  remoteAddr : String
  xForwardedFor : String
  userAgent : String

/-- The response written by `Handle`: a status code and a body. -/
structure HttpResponse where
  status : Nat
  body : String
deriving DecidableEq, Repr

/-- The fixed generic error body written by `logAndReplyError`. -/
def genericErrorBody : String :=
  "\x7b\"error_message\": \"unable to process request\"\x7d"

/-- The field injection performed by `Handle` between decode and save:
`sr.LocalTimestamp`, `sr.RemoteAddr`, `sr.XForwardedFor` and
`sr.UserAgent` are overwritten from the engine clock, the transport and
the request headers. -/
def injectReport (sr : StatsReport) (now : Int)
    (remoteAddr xff ua : String) : StatsReport :=
  { sr with
      localTimestamp := now
      remoteAddr := remoteAddr
      xForwardedFor := xff
      userAgent := ua }

/-- `Recorder.Handle`: decode, inject, save, reply.  `now` is the
engine clock reading; `saveOutcome` models the database's answer to the
one insert.  The second component lists the reports passed to `Save`,
in order, so that "no insert performed" and "no retry" are visible. -/
def handle (req : HttpRequest) (now : Int)
    (saveOutcome : StatsReport → Except String Unit) :
    HttpResponse × List StatsReport :=
  match decodeBody req.body with
  | Except.error _ => ({ status := 400, body := genericErrorBody }, [])
  | Except.ok sr0 =>
      match saveOutcome (injectReport sr0 now req.remoteAddr
          req.xForwardedFor req.userAgent) with
      | Except.error _ =>
          ({ status := 500, body := genericErrorBody },
           [injectReport sr0 now req.remoteAddr req.xForwardedFor
             req.userAgent])
      | Except.ok _ =>
          ({ status := 200, body := "\x7b\x7d" },
           [injectReport sr0 now req.remoteAddr req.xForwardedFor
             req.userAgent])

/-! ## Schema provisioning (`createTable`) -/

/-- The auto-increment keyword chosen by `createTable` for the
configured driver. -/
def autoincrementClause (dbDriver : String) : String :=
  if dbDriver = "mysql" then "AUTO_INCREMENT" else "AUTOINCREMENT"

/-- The exact DDL text issued by `createTable`, whitespace included. -/
def createTableStmt (dbDriver : String) : String :=
  "CREATE TABLE IF NOT EXISTS stats(\n\t\tid INTEGER NOT NULL PRIMARY KEY "
    ++ autoincrementClause dbDriver
    ++ " ,\n\t\thomeserver VARCHAR(256),\n\t\tlocal_timestamp BIGINT,"
    ++ "\n\t\tremote_timestamp BIGINT,\n\t\tremote_addr TEXT,"
    ++ "\n\t\tforwarded_for TEXT,\n\t\tuptime_seconds BIGINT,"
    ++ "\n\t\ttotal_users BIGINT,\n\t\ttotal_nonbridged_users BIGINT,"
    ++ "\n\t\ttotal_room_count BIGINT,\n\t\tdaily_active_users BIGINT,"
    ++ "\n\t\tdaily_active_rooms BIGINT,\n\t\tdaily_messages BIGINT,"
    ++ "\n\t\tdaily_sent_messages BIGINT,\n\t\tuser_agent TEXT\n\t\t)"

/-- The database state visible to provisioning: the `stats` table is
either absent or was created with some schema text. -/
structure DbState where
  stats : Option String
deriving DecidableEq, Repr

/-- Modelled from the spec: the SQL backend's execution of a
`CREATE TABLE IF NOT EXISTS` statement (the SQL engine is an external
collaborator, not repository code) — it creates the table only when
absent and leaves an existing table untouched, succeeding either way. -/
def execCreateIfNotExists (schema : String) (s : DbState) : DbState :=
  match s.stats with
  | some _ => s
  | none => { stats := some schema }

/-- `createTable` from `main.go`: issue the driver-appropriate
`CREATE TABLE IF NOT EXISTS` DDL against the database. -/
def createTable (dbDriver : String) (s : DbState) : DbState :=
  execCreateIfNotExists (createTableStmt dbDriver) s

/-! ## The nine optional integer fields, as one enumeration -/

/-- The optional (`*int64`) fields of `StatsReport`. -/
inductive OptField where
  | remoteTimestamp
  | uptimeSeconds
  | totalUsers
  | totalNonBridgedUsers
  | totalRoomCount
  | dailyActiveUsers
  | dailyActiveRooms
  | dailyMessages
  | dailySentMessages
deriving DecidableEq, Repr

/-- The value an optional field carries in a report. -/
def optFieldValue (f : OptField) (sr : StatsReport) : Option Int :=
  match f with
  | OptField.remoteTimestamp => sr.remoteTimestamp
  | OptField.uptimeSeconds => sr.uptimeSeconds
  | OptField.totalUsers => sr.totalUsers
  | OptField.totalNonBridgedUsers => sr.totalNonBridgedUsers
  | OptField.totalRoomCount => sr.totalRoomCount
  | OptField.dailyActiveUsers => sr.dailyActiveUsers
  | OptField.dailyActiveRooms => sr.dailyActiveRooms
  | OptField.dailyMessages => sr.dailyMessages
  | OptField.dailySentMessages => sr.dailySentMessages

/-- The column name `Save` uses for an optional field. -/
def optFieldCol (f : OptField) : String :=
  match f with
  | OptField.remoteTimestamp => "remote_timestamp"
  | OptField.uptimeSeconds => "uptime_seconds"
  | OptField.totalUsers => "total_users"
  | OptField.totalNonBridgedUsers => "total_nonbridged_users"
  | OptField.totalRoomCount => "total_room_count"
  | OptField.dailyActiveUsers => "daily_active_users"
  | OptField.dailyActiveRooms => "daily_active_rooms"
  | OptField.dailyMessages => "daily_messages"
  | OptField.dailySentMessages => "daily_sent_messages"

/-! ## Concrete example inputs -/

/-- A save outcome in which the database accepts the insert. -/
def exSaveOk : StatsReport → Except String Unit := fun _ => Except.ok ()

/-- A report with `total_users` present and value 1. -/
def exReportA : StatsReport :=
  { defaultReport with homeserver := "a.example.org", totalUsers := some 1 }

/-- A report with the same presence pattern as `exReportA` but different
values everywhere. -/
def exReportB : StatsReport :=
  { defaultReport with
      homeserver := "b.example.org"
      localTimestamp := 99
      remoteAddr := "10.0.0.1:2000"
      totalUsers := some 77 }

/-- A report with `total_users` explicitly present with value 0. -/
def exReportZero : StatsReport :=
  { defaultReport with homeserver := "x.org", totalUsers := some 0 }

/-- The same report with `total_users` absent. -/
def exReportNoTU : StatsReport :=
  { defaultReport with homeserver := "x.org" }

/-- A report with only the three always-present fields populated. -/
def exReportMin : StatsReport :=
  { defaultReport with
      homeserver := "m.org"
      localTimestamp := 5
      remoteAddr := "192.0.2.1:1111" }

/-- A request whose body is not well-formed JSON. -/
def exRequestBad : HttpRequest :=
  { body := none
    remoteAddr := "203.0.113.5:44821"
    xForwardedFor := ""
    userAgent := "" }

/-- A request with an empty JSON object body and both headers set. -/
def exRequestOk : HttpRequest :=
  { body := some (Json.obj [])
    remoteAddr := "198.51.100.7:5000"
    xForwardedFor := "203.0.113.9"
    userAgent := "synapse/1.0" }

/-- The report `Handle` passes to `Save` for `exRequestOk` at engine
time 1700000000. -/
def exSaved : StatsReport :=
  injectReport defaultReport 1700000000 "198.51.100.7:5000" "203.0.113.9"
    "synapse/1.0"

/-- A database state in which the `stats` table already exists. -/
def exDb : DbState := { stats := some "existing schema" }

/-- A decoder input with one unknown-free field and no homeserver key. -/
def exFields : List (String × Json) := [("total_users", Json.num 42)]

/-- The report `exFields` decodes to. -/
def exDecoded : StatsReport := { defaultReport with totalUsers := some 42 }

/-! ## Structural lemmas about `Save` -/

lemma appendIfNonNil_eq (c : List String) (v : List SqlValue)
    (n : String) (val : Option Int) :
    appendIfNonNil c v n val =
      (c ++ (optEntry n val).map Prod.fst, v ++ (optEntry n val).map Prod.snd) := by
  cases val <;> simp [appendIfNonNil, optEntry]

lemma appendIfNonEmpty_eq (c : List String) (v : List SqlValue)
    (n : String) (s : String) :
    appendIfNonEmpty c v n s =
      (c ++ (strEntry n s).map Prod.fst, v ++ (strEntry n s).map Prod.snd) := by
  by_cases h : s = "" <;> simp [appendIfNonEmpty, strEntry, h]

/-- `Save`'s columns and values are the two projections of one shared
entry list: the i-th column is always paired with the i-th bound value. -/
lemma saveColsVals_eq_entries (sr : StatsReport) :
    saveColsVals sr =
      ((saveEntries sr).map Prod.fst, (saveEntries sr).map Prod.snd) := by
  simp only [saveColsVals, appendIfNonNil_eq, appendIfNonEmpty_eq, saveEntries,
    List.map_append, List.append_assoc, List.map_cons, List.map_nil]

lemma saveCols_eq_entries (sr : StatsReport) :
    saveCols sr = (saveEntries sr).map Prod.fst := by
  simp [saveCols, saveColsVals_eq_entries]

lemma saveVals_eq_entries (sr : StatsReport) :
    saveVals sr = (saveEntries sr).map Prod.snd := by
  simp [saveVals, saveColsVals_eq_entries]

lemma saveVals_length_eq (sr : StatsReport) :
    (saveVals sr).length = (saveCols sr).length := by
  simp [saveCols_eq_entries, saveVals_eq_entries]

lemma optEntry_map_fst (n : String) (v : Option Int) :
    (optEntry n v).map Prod.fst = if v.isSome then [n] else [] := by
  cases v <;> simp [optEntry]

lemma strEntry_map_fst (n : String) (s : String) :
    (strEntry n s).map Prod.fst = if s ≠ "" then [n] else [] := by
  by_cases h : s = "" <;> simp [strEntry, h]

/-- The column list of `Save`, written as the three fixed columns
followed by one optional segment per field, in source order. -/
lemma saveCols_shape (sr : StatsReport) :
    saveCols sr =
      ["homeserver", "local_timestamp", "remote_addr"]
      ++ (if sr.remoteTimestamp.isSome then ["remote_timestamp"] else [])
      ++ (if sr.uptimeSeconds.isSome then ["uptime_seconds"] else [])
      ++ (if sr.totalUsers.isSome then ["total_users"] else [])
      ++ (if sr.totalNonBridgedUsers.isSome then ["total_nonbridged_users"] else [])
      ++ (if sr.totalRoomCount.isSome then ["total_room_count"] else [])
      ++ (if sr.dailyActiveUsers.isSome then ["daily_active_users"] else [])
      ++ (if sr.dailyActiveRooms.isSome then ["daily_active_rooms"] else [])
      ++ (if sr.dailyMessages.isSome then ["daily_messages"] else [])
      ++ (if sr.dailySentMessages.isSome then ["daily_sent_messages"] else [])
      ++ (if sr.xForwardedFor ≠ "" then ["forwarded_for"] else [])
      ++ (if sr.userAgent ≠ "" then ["user_agent"] else []) := by
  simp [saveCols_eq_entries, saveEntries, optEntry_map_fst, strEntry_map_fst]

/-- Zipping `Save`'s columns with its values recovers the entry list:
column i is bound to value i. -/
lemma saveZip_eq (sr : StatsReport) :
    (saveCols sr).zip (saveVals sr) = saveEntries sr := by
  rw [saveCols_eq_entries, saveVals_eq_entries, List.zip_map']
  simp

lemma mem_ite_singleton {α : Type} {c : Prop} [Decidable c] {x y : α} :
    x ∈ (if c then [y] else []) ↔ c ∧ x = y := by
  split <;> simp_all

/-! ## Helper lemmas for provisioning and decoding -/

lemma createTable_iterate (dbDriver : String) :
    ∀ (n : Nat) (s : DbState),
      (createTable dbDriver)^[n + 1] s = createTable dbDriver s := by
  intro n
  induction n with
  | zero => intro s; rfl
  | succ m ih =>
      intro s
      rw [Function.iterate_succ_apply, ih]
      unfold createTable execCreateIfNotExists
      cases h : s.stats <;> simp [h]

lemma setField_preserves_homeserver (sr : StatsReport) (key : String)
    (v : Json) (b : StatsReport) (hk : keyOf key ≠ FieldKey.homeserver)
    (hok : setField sr key v = Except.ok b) : b.homeserver = sr.homeserver := by
  unfold setField at hok
  cases hkey : keyOf key <;> rw [hkey] at hok <;> first
    | exact absurd hkey hk
    | (cases v <;> first
        | exact Except.noConfusion hok
        | (injection hok with h2; rw [← h2]))

lemma foldlM_preserves_homeserver :
    ∀ (fields : List (String × Json)) (sr0 sr : StatsReport),
      (∀ kv ∈ fields, keyOf kv.1 ≠ FieldKey.homeserver) →
      List.foldlM (fun sr kv => setField sr kv.1 kv.2) sr0 fields =
        Except.ok sr →
      sr.homeserver = sr0.homeserver := by
  intro fields
  induction fields with
  | nil =>
      intro sr0 sr _ h
      simp only [List.foldlM_nil, pure, Except.pure, Except.ok.injEq] at h
      rw [← h]
  | cons kv rest ih =>
      intro sr0 sr hks h
      rw [List.foldlM_cons] at h
      cases hsf : setField sr0 kv.1 kv.2 with
      | error e =>
          rw [hsf] at h
          simp [Bind.bind, Except.bind] at h
      | ok b =>
          rw [hsf] at h
          simp only [Bind.bind, Except.bind] at h
          have hb := setField_preserves_homeserver sr0 kv.1 kv.2 b
            (hks kv (by simp)) hsf
          have hr := ih b sr (fun kv2 hm => hks kv2 (by simp [hm])) h
          rw [hr, hb]

/-! ## Claim theorems -/

/-- C1: For reports with the same field-presence pattern, `Save`
generates character-for-character identical SQL statement text under
any fixed driver: the statement text depends only on the presence
pattern and the driver, never on the report's values, which travel only
in the bound-value list. -/
theorem saveSQL_determined_by_presence_and_driver (dbDriver : String)
    (sr1 sr2 : StatsReport)
    (h : presencePattern sr1 = presencePattern sr2) :
    saveSQL dbDriver sr1 = saveSQL dbDriver sr2 := by
  simp only [presencePattern, List.cons.injEq, and_true, decide_eq_decide] at h
  obtain ⟨e1, e2, e3, e4, e5, e6, e7, e8, e9, e10, e11⟩ := h
  have hc : saveCols sr1 = saveCols sr2 := by
    rw [saveCols_shape, saveCols_shape, e1, e2, e3, e4, e5, e6, e7, e8, e9]
    simp only [e10, e11]
  have hv : (saveVals sr1).length = (saveVals sr2).length := by
    rw [saveVals_length_eq, saveVals_length_eq, hc]
  simp [saveSQL, savePlaceholders, hc, hv]

/-- Witness for C1: two reports sharing a presence pattern but agreeing
on no field value produce the same SQL text. -/
theorem saveSQL_determined_by_presence_and_driver_witness :
    presencePattern exReportA = presencePattern exReportB ∧
    saveSQL "sqlite3" exReportA = saveSQL "sqlite3" exReportB :=
  ⟨by decide,
   saveSQL_determined_by_presence_and_driver "sqlite3" exReportA exReportB
     (by decide)⟩

/-- C2: A report carrying an optional field with value 0 gets that
field's column with bound value 0, while a report with the field nil
does not mention the column at all, so the two column sets differ. -/
theorem zero_valued_field_distinct_from_absent (f : OptField)
    (sr1 sr2 : StatsReport)
    (h1 : optFieldValue f sr1 = some 0) (h2 : optFieldValue f sr2 = none) :
    (optFieldCol f, SqlValue.i 0) ∈ (saveCols sr1).zip (saveVals sr1) ∧
    optFieldCol f ∉ saveCols sr2 ∧
    saveCols sr1 ≠ saveCols sr2 := by
  have hmem : (optFieldCol f, SqlValue.i 0) ∈ (saveCols sr1).zip (saveVals sr1) := by
    rw [saveZip_eq]
    cases f <;> simp_all [saveEntries, optEntry, optFieldValue, optFieldCol]
  have hnot : optFieldCol f ∉ saveCols sr2 := by
    rw [saveCols_shape]
    cases f <;>
      simp_all [optFieldValue, optFieldCol, mem_ite_singleton, List.mem_append]
  refine ⟨hmem, hnot, fun heq => hnot ?_⟩
  have hin : optFieldCol f ∈ saveCols sr1 := (List.of_mem_zip hmem).1
  rwa [heq] at hin

/-- Witness for C2 at the `total_users` field: present-as-0 versus
absent. -/
theorem zero_valued_field_distinct_from_absent_witness :
    optFieldValue OptField.totalUsers exReportZero = some 0 ∧
    optFieldValue OptField.totalUsers exReportNoTU = none ∧
    (("total_users", SqlValue.i 0) ∈
        (saveCols exReportZero).zip (saveVals exReportZero) ∧
      "total_users" ∉ saveCols exReportNoTU ∧
      saveCols exReportZero ≠ saveCols exReportNoTU) :=
  ⟨rfl, rfl,
   zero_valued_field_distinct_from_absent OptField.totalUsers exReportZero
     exReportNoTU rfl rfl⟩

/-- C3: A report with every optional integer field nil and both header
strings empty is inserted with exactly the three columns `homeserver`,
`local_timestamp`, `remote_addr` and exactly three bound values. -/
theorem homeserver_only_report_three_columns (sr : StatsReport)
    (h1 : sr.remoteTimestamp = none) (h2 : sr.uptimeSeconds = none)
    (h3 : sr.totalUsers = none) (h4 : sr.totalNonBridgedUsers = none)
    (h5 : sr.totalRoomCount = none) (h6 : sr.dailyActiveUsers = none)
    (h7 : sr.dailyActiveRooms = none) (h8 : sr.dailyMessages = none)
    (h9 : sr.dailySentMessages = none)
    (h10 : sr.xForwardedFor = "") (h11 : sr.userAgent = "") :
    saveCols sr = ["homeserver", "local_timestamp", "remote_addr"] ∧
    saveVals sr = [SqlValue.s sr.homeserver, SqlValue.i sr.localTimestamp,
      SqlValue.s sr.remoteAddr] ∧
    (saveVals sr).length = 3 := by
  refine ⟨?_, ?_, ?_⟩ <;>
    simp [saveCols_eq_entries, saveVals_eq_entries, saveEntries,
      optEntry, strEntry, h1, h2, h3, h4, h5, h6, h7, h8, h9, h10, h11]

/-- Witness for C3 at a concrete minimal report. -/
theorem homeserver_only_report_three_columns_witness :
    saveCols exReportMin = ["homeserver", "local_timestamp", "remote_addr"] ∧
    saveVals exReportMin = [SqlValue.s exReportMin.homeserver,
      SqlValue.i exReportMin.localTimestamp,
      SqlValue.s exReportMin.remoteAddr] ∧
    (saveVals exReportMin).length = 3 :=
  homeserver_only_report_three_columns exReportMin rfl rfl rfl rfl rfl rfl
    rfl rfl rfl rfl rfl

/-- C4: `Save` generates exactly one placeholder token per bound value
(and per column), and the i-th token is `?` under the mysql driver and
`$(i+1)` under any other driver. -/
theorem placeholders_match_dialect_one_per_value (dbDriver : String)
    (sr : StatsReport) (i : Nat) (h : i < (saveVals sr).length) :
    (savePlaceholders dbDriver sr).length = (saveVals sr).length ∧
    (saveVals sr).length = (saveCols sr).length ∧
    (savePlaceholders dbDriver sr)[i]? =
      some (if dbDriver = "mysql" then "?" else "$" ++ toString (i + 1)) := by
  refine ⟨by simp [savePlaceholders, placeholders], saveVals_length_eq sr, ?_⟩
  simp [savePlaceholders, placeholders, List.getElem?_range, h]

/-- Witness for C4 at index 2 of a four-value report under the
non-mysql dialect. -/
theorem placeholders_match_dialect_one_per_value_witness :
    2 < (saveVals exReportA).length ∧
    ((savePlaceholders "sqlite3" exReportA).length =
        (saveVals exReportA).length ∧
      (saveVals exReportA).length = (saveCols exReportA).length ∧
      (savePlaceholders "sqlite3" exReportA)[2]? =
        some (if "sqlite3" = "mysql" then "?" else "$" ++ toString (2 + 1))) :=
  ⟨by decide,
   placeholders_match_dialect_one_per_value "sqlite3" exReportA 2 (by decide)⟩

/-- C5: The column list always begins with `homeserver`,
`local_timestamp`, `remote_addr` and continues with exactly the present
optional columns in one fixed canonical order, so the relative order of
any two emitted columns is the same for every report. -/
theorem save_columns_fixed_canonical_order (sr : StatsReport) :
    saveCols sr =
      ["homeserver", "local_timestamp", "remote_addr"]
      ++ (if sr.remoteTimestamp.isSome then ["remote_timestamp"] else [])
      ++ (if sr.uptimeSeconds.isSome then ["uptime_seconds"] else [])
      ++ (if sr.totalUsers.isSome then ["total_users"] else [])
      ++ (if sr.totalNonBridgedUsers.isSome then ["total_nonbridged_users"] else [])
      ++ (if sr.totalRoomCount.isSome then ["total_room_count"] else [])
      ++ (if sr.dailyActiveUsers.isSome then ["daily_active_users"] else [])
      ++ (if sr.dailyActiveRooms.isSome then ["daily_active_rooms"] else [])
      ++ (if sr.dailyMessages.isSome then ["daily_messages"] else [])
      ++ (if sr.dailySentMessages.isSome then ["daily_sent_messages"] else [])
      ++ (if sr.xForwardedFor ≠ "" then ["forwarded_for"] else [])
      ++ (if sr.userAgent ≠ "" then ["user_agent"] else []) :=
  saveCols_shape sr

/-- C6: When decoding fails the handler replies 400 with the fixed
generic body and `Save` is never invoked; when decoding succeeds but
the insert fails it replies 500 with the same fixed body after exactly
one save attempt (no retry); neither body carries the underlying
error's text, being a constant independent of the error value. -/
theorem handle_failures_generic_no_retry (req : HttpRequest) (now : Int)
    (saveOutcome : StatsReport → Except String Unit) :
    (∀ e, decodeBody req.body = Except.error e →
       handle req now saveOutcome =
         ({ status := 400, body := genericErrorBody }, [])) ∧
    (∀ sr0 e, decodeBody req.body = Except.ok sr0 →
       saveOutcome (injectReport sr0 now req.remoteAddr req.xForwardedFor
         req.userAgent) = Except.error e →
       handle req now saveOutcome =
         ({ status := 500, body := genericErrorBody },
          [injectReport sr0 now req.remoteAddr req.xForwardedFor
            req.userAgent])) := by
  constructor
  · intro e he
    simp [handle, he]
  · intro sr0 e hd hs
    simp [handle, hd, hs]

/-- Witness for C6: a request whose body is not well-formed JSON gets
the 400 response with the generic body and an empty save-attempt
list. -/
theorem handle_failures_generic_no_retry_witness :
    decodeBody exRequestBad.body = Except.error "invalid JSON" ∧
    handle exRequestBad 0 exSaveOk =
      ({ status := 400, body := genericErrorBody }, []) :=
  ⟨rfl, (handle_failures_generic_no_retry exRequestBad 0 exSaveOk).1
    "invalid JSON" rfl⟩

/-- C7: `createTable` issues a statement beginning with
`CREATE TABLE IF NOT EXISTS stats`; invoking it on a state where the
table exists leaves the state unchanged, invoking it twice equals
invoking it once, and any positive number of invocations equals one. -/
theorem createTable_idempotent (dbDriver : String) (s : DbState) :
    createTable dbDriver (createTable dbDriver s) = createTable dbDriver s ∧
    (∀ schema, s.stats = some schema → createTable dbDriver s = s) ∧
    (∀ n, (createTable dbDriver)^[n + 1] s = createTable dbDriver s) ∧
    (∃ rest, createTableStmt dbDriver =
      "CREATE TABLE IF NOT EXISTS stats" ++ rest) := by
  refine ⟨?_, ?_, fun n => createTable_iterate dbDriver n s, ?_⟩
  · have h1 := createTable_iterate dbDriver 1 s
    simpa [Function.iterate_succ_apply] using h1
  · intro schema hs
    simp [createTable, execCreateIfNotExists, hs]
  · have hconcat : "CREATE TABLE IF NOT EXISTS stats"
        ++ "(\n\t\tid INTEGER NOT NULL PRIMARY KEY "
        = "CREATE TABLE IF NOT EXISTS stats(\n\t\tid INTEGER NOT NULL PRIMARY KEY " := by
      decide
    refine ⟨"(\n\t\tid INTEGER NOT NULL PRIMARY KEY "
      ++ autoincrementClause dbDriver
      ++ (" ,\n\t\thomeserver VARCHAR(256),\n\t\tlocal_timestamp BIGINT,"
        ++ "\n\t\tremote_timestamp BIGINT,\n\t\tremote_addr TEXT,"
        ++ "\n\t\tforwarded_for TEXT,\n\t\tuptime_seconds BIGINT,"
        ++ "\n\t\ttotal_users BIGINT,\n\t\ttotal_nonbridged_users BIGINT,"
        ++ "\n\t\ttotal_room_count BIGINT,\n\t\tdaily_active_users BIGINT,"
        ++ "\n\t\tdaily_active_rooms BIGINT,\n\t\tdaily_messages BIGINT,"
        ++ "\n\t\tdaily_sent_messages BIGINT,\n\t\tuser_agent TEXT\n\t\t)"), ?_⟩
    unfold createTableStmt
    rw [← hconcat]
    simp only [String.append_assoc]

/-- Witness for C7: re-provisioning over an existing table is the
identity. -/
theorem createTable_idempotent_witness :
    exDb.stats = some "existing schema" ∧
    createTable "sqlite3" exDb = exDb :=
  ⟨rfl, (createTable_idempotent "sqlite3" exDb).2.1 "existing schema" rfl⟩

/-- C8 counterexample: the empty JSON object is accepted by the decoder
and yields a report whose homeserver is the empty string, so an
accepted body does not always carry a non-empty homeserver. -/
theorem decode_accepts_missing_homeserver_cex :
    decodeStatsReport (Json.obj []) = Except.ok defaultReport ∧
    defaultReport.homeserver = "" :=
  ⟨rfl, rfl⟩

/-- C8 (amended): the decoder enforces no homeserver requirement — any
accepted body with no key matching the homeserver field decodes to a
report whose homeserver is the empty string, and `Save` still binds the
`homeserver` column to that empty string in the stored row. -/
theorem decode_missing_homeserver_empty_saved
    (fields : List (String × Json)) (sr : StatsReport)
    (hnone : ∀ kv ∈ fields, keyOf kv.1 ≠ FieldKey.homeserver)
    (hdec : decodeStatsReport (Json.obj fields) = Except.ok sr) :
    sr.homeserver = "" ∧
    ∀ (now : Int) (ra xff ua : String),
      ("homeserver", SqlValue.s "") ∈
        (saveCols (injectReport sr now ra xff ua)).zip
          (saveVals (injectReport sr now ra xff ua)) := by
  have h0 : sr.homeserver = "" := by
    simp only [decodeStatsReport] at hdec
    have hp := foldlM_preserves_homeserver fields defaultReport sr hnone hdec
    simpa [defaultReport] using hp
  refine ⟨h0, fun now ra xff ua => ?_⟩
  rw [saveZip_eq]
  simp [saveEntries, injectReport, h0]

/-- Witness for the amended C8: a body carrying only `total_users` is
accepted, decodes with empty homeserver, and is saved with the
`homeserver` column bound to the empty string. -/
theorem decode_missing_homeserver_empty_saved_witness :
    (∀ kv ∈ exFields, keyOf kv.1 ≠ FieldKey.homeserver) ∧
    decodeStatsReport (Json.obj exFields) = Except.ok exDecoded ∧
    (exDecoded.homeserver = "" ∧
      ∀ (now : Int) (ra xff ua : String),
        ("homeserver", SqlValue.s "") ∈
          (saveCols (injectReport exDecoded now ra xff ua)).zip
            (saveVals (injectReport exDecoded now ra xff ua))) :=
  ⟨by decide, rfl,
   decode_missing_homeserver_empty_saved exFields exDecoded (by decide) rfl⟩

/-- C9: every report the handler passes to `Save` carries the
engine-assigned receipt time, the transport-observed peer address and
the request's header values, whatever the JSON body said for those
fields; the two header-derived columns are written exactly when the
header value is non-empty. -/
theorem saved_report_injected_fields_from_transport (req : HttpRequest)
    (now : Int) (saveOutcome : StatsReport → Except String Unit)
    (sr : StatsReport) (hmem : sr ∈ (handle req now saveOutcome).2) :
    sr.localTimestamp = now ∧
    sr.remoteAddr = req.remoteAddr ∧
    sr.xForwardedFor = req.xForwardedFor ∧
    sr.userAgent = req.userAgent ∧
    (req.xForwardedFor = "" → "forwarded_for" ∉ saveCols sr) ∧
    (req.xForwardedFor ≠ "" →
      ("forwarded_for", SqlValue.s req.xForwardedFor) ∈
        (saveCols sr).zip (saveVals sr)) ∧
    (req.userAgent = "" → "user_agent" ∉ saveCols sr) ∧
    (req.userAgent ≠ "" →
      ("user_agent", SqlValue.s req.userAgent) ∈
        (saveCols sr).zip (saveVals sr)) := by
  unfold handle at hmem
  split at hmem
  · simp at hmem
  · split at hmem <;> simp at hmem <;> subst hmem <;>
      refine ⟨rfl, rfl, rfl, rfl, ?_, ?_, ?_, ?_⟩ <;> intro h
    · rw [saveCols_shape]; simp [injectReport, h, mem_ite_singleton]
    · rw [saveZip_eq]; simp [saveEntries, strEntry, injectReport, h]
    · rw [saveCols_shape]; simp [injectReport, h, mem_ite_singleton]
    · rw [saveZip_eq]; simp [saveEntries, strEntry, injectReport, h]
    · rw [saveCols_shape]; simp [injectReport, h, mem_ite_singleton]
    · rw [saveZip_eq]; simp [saveEntries, strEntry, injectReport, h]
    · rw [saveCols_shape]; simp [injectReport, h, mem_ite_singleton]
    · rw [saveZip_eq]; simp [saveEntries, strEntry, injectReport, h]

/-- Witness for C9: the report saved for `exRequestOk` carries the
engine clock, peer address and both headers. -/
theorem saved_report_injected_fields_from_transport_witness :
    exSaved ∈ (handle exRequestOk 1700000000 exSaveOk).2 ∧
    (exSaved.localTimestamp = 1700000000 ∧
      exSaved.remoteAddr = exRequestOk.remoteAddr ∧
      exSaved.xForwardedFor = exRequestOk.xForwardedFor ∧
      exSaved.userAgent = exRequestOk.userAgent ∧
      (exRequestOk.xForwardedFor = "" → "forwarded_for" ∉ saveCols exSaved) ∧
      (exRequestOk.xForwardedFor ≠ "" →
        ("forwarded_for", SqlValue.s exRequestOk.xForwardedFor) ∈
          (saveCols exSaved).zip (saveVals exSaved)) ∧
      (exRequestOk.userAgent = "" → "user_agent" ∉ saveCols exSaved) ∧
      (exRequestOk.userAgent ≠ "" →
        ("user_agent", SqlValue.s exRequestOk.userAgent) ∈
          (saveCols exSaved).zip (saveVals exSaved))) :=
  ⟨by decide,
   saved_report_injected_fields_from_transport exRequestOk 1700000000
     exSaveOk exSaved (by decide)⟩

/-- C10: the JSON key the decoder accepts for the remote timestamp is
`timestamp` (the struct tag): a body using `timestamp` populates the
field, while a body using `remote_timestamp` is ignored, leaving the
field absent and its column unwritten. -/
theorem remote_timestamp_key_is_timestamp (n : Int) :
    decodeStatsReport (Json.obj [("timestamp", Json.num n)]) =
      Except.ok { defaultReport with remoteTimestamp := some n } ∧
    decodeStatsReport (Json.obj [("remote_timestamp", Json.num n)]) =
      Except.ok defaultReport ∧
    "remote_timestamp" ∉ saveCols defaultReport :=
  ⟨rfl, rfl, by decide⟩
